import Mathlib

/-!
Shallow embedding of covasim/requirements.py: the dependency guard module.
It exposes two module-level dicts (`available`, `min_versions`), a mandatory
check `check_sciris` run once at module load, and an optional probe
`check_synthpops`.
-/

/-- A Python exception value raised by the requirements module: a
ModuleNotFoundError, a plain ImportError, or a KeyError from a dict lookup. -/
inductive PyExc where
  | moduleNotFoundError (msg : String)
  | importError (msg : String)
  | keyError (key : String)
  deriving DecidableEq

/-- Python instance test against ImportError: ModuleNotFoundError is a
subclass of ImportError, so both kinds satisfy it; KeyError does not. -/
def PyExc.isImportError : PyExc → Bool
  | .moduleNotFoundError _ => true
  | .importError _ => true
  | .keyError _ => false

/-- Outcome of a Python `import` statement for a library whose loaded module
object has type α: success with the module, a ModuleNotFoundError, or a plain
ImportError raised during the load. -/
inductive ImportOutcome (α : Type) where
  | ok (m : α)
  | moduleNotFoundError (msg : String)
  | importError (msg : String)
  deriving DecidableEq

/-- The sciris module object, consumed only for its self-reported version
string attribute. -/
structure ScirisModule where
  version : String
  deriving DecidableEq

/-- Split a character list at dot characters. -/
def splitDots : List Char → List (List Char)
  | [] => [[]]
  | c :: cs =>
    if c = '.' then [] :: splitDots cs
    else
      match splitDots cs with
      | [] => [[c]]
      | p :: ps => (c :: p) :: ps

/-- Read a character list as a base-10 natural number. -/
def charsToNat (cs : List Char) : Nat :=
  cs.foldl (fun acc c => acc * 10 + (c.toNat - 48)) 0

/-- Parse a dotted version string into its numeric components. -/
def parseVersion (s : String) : List Nat :=
  (splitDots s.data).map charsToNat

/-- Compare two lists of numeric version components, component-wise, with
missing trailing components treated as zero: negative, zero or positive. -/
def cmpParts : List Nat → List Nat → Int
  | [], [] => 0
  | [], b :: bs => if (b :: bs).all (fun x => x == 0) then 0 else -1
  | a :: as, [] => if (a :: as).all (fun x => x == 0) then 0 else 1
  | a :: as, b :: bs =>
    if a < b then -1
    else if b < a then 1
    else cmpParts as bs

/-- Modelled from the spec: the external version-comparison collaborator
`sciris.compareversions` (spec section 6), `compare(installed, required)`
returning a negative/zero/positive integer for less/equal/greater under
semantic version ordering (glossary: numeric component-wise comparison). -/
def compareversions (installed required : String) : Int :=
  cmpParts (parseVersion installed) (parseVersion required)

/-- Python dict lookup on a string-to-string dict modelled as an association
list; `none` corresponds to a KeyError. -/
def dictGet (d : List (String × String)) (k : String) : Option String :=
  match d with
  | [] => none
  | (k2, v) :: rest => if k2 = k then some v else dictGet rest k

/-- Module-level constant `available` (requirements.py line 11): the empty
dict made available at the module level. -/
def available : List (String × String) := []

/-- Module-level constant `min_versions` (requirements.py line 12). -/
def min_versions : List (String × String) := [("sciris", "0.17.2")]

/-- The error message raised when sciris cannot be found (line 22). -/
def sciris_missing_errormsg : String :=
  "Sciris is a required dependency but is not found; please install via \"pip install sciris\""

/-- The error message raised when the installed sciris is too old (line 27). -/
def sciris_outdated_errormsg (ver minver : String) : String :=
  "You have Sciris " ++ ver ++ " but " ++ minver ++
    " is required; please upgrade via \"pip install --upgrade sciris\""

/-- The message built by check_synthpops when synthpops is unavailable
(line 40), embedding str(E) for the caught ImportError E. -/
def synthpops_unavailable_errormsg (e : String) : String :=
  "Synthpops (for detailed demographic data) is not available (" ++ e ++ ")\n"

/-- check_sciris (requirements.py lines 17-30), parameterised by the outcome
of importing sciris and by the current contents of the `min_versions` dict.
Only a ModuleNotFoundError from the load is caught and replaced by the
missing-dependency error; a plain ImportError propagates unchanged. Then the
installed version is compared against `min_versions` of sciris and an
ImportError is raised when it is below the minimum. -/
def check_sciris (scirisEnv : ImportOutcome ScirisModule)
    (minVersionsTable : List (String × String)) : Except PyExc Unit :=
  match scirisEnv with
  | .moduleNotFoundError _ => .error (.moduleNotFoundError sciris_missing_errormsg)
  | .importError m => .error (.importError m)
  | .ok sc =>
    match dictGet minVersionsTable "sciris" with
    | none => .error (.keyError "sciris")
    | some minver =>
      if compareversions sc.version minver < 0 then
        .error (.importError (sciris_outdated_errormsg sc.version minver))
      else
        .ok ()

/-- Value returned by a terminating call of check_synthpops: the loaded
synthpops module (line 38), the literal False (line 45), or Python None from
the trailing bare return (line 47). -/
inductive SynthReturn (α : Type) where
  | module (handle : α)
  | boolFalse
  | pyNone
  deriving DecidableEq

/-- The try/except part of check_synthpops (lines 36-45): every path inside
it returns or raises, so it yields `some` (a result together with the list of
printed lines); `none` would mean control fell through to the trailing bare
return on line 47. -/
def check_synthpops_body {α : Type} (synthpopsEnv : ImportOutcome α)
    (verbose die : Bool) : Option (Except PyExc (SynthReturn α) × List String) :=
  match synthpopsEnv with
  | .ok handle => some (.ok (.module handle), [])
  | .moduleNotFoundError m | .importError m =>
    let msg := synthpops_unavailable_errormsg m
    if die then some (.error (.importError msg), [])
    else if verbose then some (.ok .boolFalse, [msg])
    else some (.ok .boolFalse, [])

/-- check_synthpops (requirements.py lines 33-47): run the try/except body;
if it fell through, execute the trailing bare return (line 47), which yields
Python None. Returns the result paired with the printed output. -/
def check_synthpops {α : Type} (synthpopsEnv : ImportOutcome α)
    (verbose die : Bool) : Except PyExc (SynthReturn α) × List String :=
  match check_synthpops_body synthpopsEnv verbose die with
  | some r => r
  | none => (.ok .pyNone, [])

/-- The module object produced by a successful load of requirements.py: its
two public dict globals. -/
structure RequirementsModule where
  available : List (String × String)
  min_versions : List (String × String)
  deriving DecidableEq

/-- Observable calls made while the module body runs. -/
inductive LoadEffect where
  | callCheckSciris
  deriving DecidableEq

/-- Loading requirements.py: the module body initialises `available` and
`min_versions`, defines the two functions, and then calls check_sciris()
(line 50) as its only module-level statement with effects. The trace records
each call of check_sciris made during the load; if the check raises, the
module load fails with that error, otherwise the module object is produced. -/
def load_requirements (scirisEnv : ImportOutcome ScirisModule) :
    List LoadEffect × Except PyExc RequirementsModule :=
  match check_sciris scirisEnv min_versions with
  | .error e => ([LoadEffect.callCheckSciris], .error e)
  | .ok _ => ([LoadEffect.callCheckSciris],
      .ok { available := available, min_versions := min_versions })

/-- check_sciris with the module globals threaded explicitly: the body reads
`min_versions` and never assigns to either global, so the state it returns is
the state it received. -/
def check_sciris_st (scirisEnv : ImportOutcome ScirisModule)
    (g : RequirementsModule) : Except PyExc Unit × RequirementsModule :=
  (check_sciris scirisEnv g.min_versions, g)

/-- check_synthpops with the module globals threaded explicitly: the body
reads neither global and never assigns to either, so the state it returns is
the state it received and the result does not depend on the state. -/
def check_synthpops_st {α : Type} (synthpopsEnv : ImportOutcome α)
    (verbose die : Bool) (g : RequirementsModule) :
    (Except PyExc (SynthReturn α) × List String) × RequirementsModule :=
  (check_synthpops synthpopsEnv verbose die, g)

/-- Component-wise version comparison is antisymmetric. -/
theorem cmpParts_antisymm (as bs : List Nat) : cmpParts as bs = - cmpParts bs as := by
  induction as generalizing bs with
  | nil =>
    cases bs with
    | nil => rfl
    | cons b bs =>
      simp only [cmpParts]
      split <;> simp
  | cons a as ih =>
    cases bs with
    | nil =>
      simp only [cmpParts]
      split <;> simp
    | cons b bs =>
      simp only [cmpParts]
      rcases Nat.lt_trichotomy a b with h | h | h
      · simp [h, Nat.lt_asymm h]
      · subst h
        simp [Nat.lt_irrefl, ih]
      · simp [h, Nat.lt_asymm h]

/-- The modelled external comparison is antisymmetric: swapping its arguments
negates its sign. -/
theorem compareversions_antisymm (a b : String) :
    compareversions a b = - compareversions b a :=
  cmpParts_antisymm _ _

/-- Claim C1: for every pair of version strings (a, b) with a < b under
semantic ordering, check_sciris with sciris importable raises the outdated
dependency ImportError, whose message names both versions and gives the
upgrade instruction, when installed=a and minimum=b; it returns normally when
installed=b and minimum=a; and in general it raises exactly when the external
comparison compare(installed, minimum) is negative. -/
theorem check_sciris_outdated_iff (a b : String) (h : compareversions a b < 0) :
    check_sciris (ImportOutcome.ok { version := a }) [("sciris", b)]
      = Except.error (PyExc.importError (sciris_outdated_errormsg a b))
    ∧ check_sciris (ImportOutcome.ok { version := b }) [("sciris", a)] = Except.ok ()
    ∧ ∀ v m : String,
        (∃ e, check_sciris (ImportOutcome.ok { version := v }) [("sciris", m)]
            = Except.error e)
        ↔ compareversions v m < 0 := by
  have hba : ¬ compareversions b a < 0 := by
    rw [compareversions_antisymm b a]
    omega
  refine ⟨?_, ?_, ?_⟩
  · simp [check_sciris, dictGet, h]
  · simp [check_sciris, dictGet, hba]
  · intro v m
    by_cases hvm : compareversions v m < 0
    · simp [check_sciris, dictGet, hvm]
    · simp [check_sciris, dictGet, hvm]

/-- Witness for C1 at the concrete pair ("0.17.1", "0.17.2"). -/
theorem check_sciris_outdated_iff_witness :
    check_sciris (ImportOutcome.ok { version := "0.17.1" }) [("sciris", "0.17.2")]
      = Except.error (PyExc.importError (sciris_outdated_errormsg "0.17.1" "0.17.2"))
    ∧ check_sciris (ImportOutcome.ok { version := "0.17.2" }) [("sciris", "0.17.1")]
      = Except.ok () := by
  have h := check_sciris_outdated_iff "0.17.1" "0.17.2" (by decide)
  exact ⟨h.1, h.2.1⟩

/-- Claim C2: when sciris is not importable, check_sciris raises the
ModuleNotFoundError with the missing-dependency message naming the library
and the install instruction, whatever the contents of the minimum-version
table. -/
theorem check_sciris_missing_dependency (m : String) (tbl : List (String × String)) :
    check_sciris (ImportOutcome.moduleNotFoundError m) tbl
      = Except.error (PyExc.moduleNotFoundError sciris_missing_errormsg) := rfl

/-- Claim C3: loading the module executes check_sciris exactly once as a
module-level side effect, and the load succeeds with the module object
exactly when the check returns normally; if the check raises, the load fails
with that very error. -/
theorem load_requirements_runs_check (scirisEnv : ImportOutcome ScirisModule) :
    (load_requirements scirisEnv).1 = [LoadEffect.callCheckSciris]
    ∧ (load_requirements scirisEnv).2
      = Except.map
          (fun _ => ({ available := available, min_versions := min_versions } :
            RequirementsModule))
          (check_sciris scirisEnv min_versions) := by
  unfold load_requirements
  cases hc : check_sciris scirisEnv min_versions <;> simp [Except.map]

/-- Claim C4: when synthpops is absent (its load raises either kind of
ImportError), check_synthpops with die=true raises an ImportError whose
message embeds the underlying load failure message; and with die=false no
exception is ever raised, whatever verbose is. -/
theorem check_synthpops_die_raises (α : Type) (m : String) (verbose : Bool) :
    check_synthpops (ImportOutcome.moduleNotFoundError m : ImportOutcome α) verbose true
      = (Except.error (PyExc.importError (synthpops_unavailable_errormsg m)), [])
    ∧ check_synthpops (ImportOutcome.importError m : ImportOutcome α) verbose true
      = (Except.error (PyExc.importError (synthpops_unavailable_errormsg m)), [])
    ∧ ∀ (v : Bool) (e : PyExc),
        (check_synthpops (ImportOutcome.moduleNotFoundError m : ImportOutcome α) v false).1
          ≠ Except.error e
        ∧ (check_synthpops (ImportOutcome.importError m : ImportOutcome α) v false).1
          ≠ Except.error e := by
  refine ⟨rfl, rfl, ?_⟩
  intro v e
  cases v <;> simp [check_synthpops, check_synthpops_body]

/-- Witness for C4 at a concrete absent-synthpops environment. -/
theorem check_synthpops_die_raises_witness :
    check_synthpops (ImportOutcome.moduleNotFoundError "no synthpops" : ImportOutcome Unit)
        false true
      = (Except.error (PyExc.importError (synthpops_unavailable_errormsg "no synthpops")),
         []) :=
  (check_synthpops_die_raises Unit "no synthpops" false).1

/-- Claim C5: when synthpops is absent and die is false, check_synthpops
returns the value False and raises nothing; with verbose=true it prints
exactly one line, the very message used in the fatal error, and with
verbose=false it prints nothing. -/
theorem check_synthpops_nodie_silent (α : Type) (m : String) :
    check_synthpops (ImportOutcome.moduleNotFoundError m : ImportOutcome α) false false
      = (Except.ok SynthReturn.boolFalse, [])
    ∧ check_synthpops (ImportOutcome.importError m : ImportOutcome α) false false
      = (Except.ok SynthReturn.boolFalse, [])
    ∧ check_synthpops (ImportOutcome.moduleNotFoundError m : ImportOutcome α) true false
      = (Except.ok SynthReturn.boolFalse, [synthpops_unavailable_errormsg m])
    ∧ check_synthpops (ImportOutcome.importError m : ImportOutcome α) true false
      = (Except.ok SynthReturn.boolFalse, [synthpops_unavailable_errormsg m]) :=
  ⟨rfl, rfl, rfl, rfl⟩

/-- Claim C6: when synthpops is importable, check_synthpops returns the
loaded module itself for every combination of the verbose and die flags,
raising nothing and printing nothing. -/
theorem check_synthpops_present_returns_handle (α : Type) (handle : α)
    (verbose die : Bool) :
    check_synthpops (ImportOutcome.ok handle) verbose die
      = (Except.ok (SynthReturn.module handle), []) := rfl

/-- Claim C7: the key consulted by check_sciris is present in min_versions
(mapped to "0.17.2"), so the dict lookup never fails and the KeyError branch
of check_sciris is unreachable on the module's own table. -/
theorem min_versions_lookup_total :
    dictGet min_versions "sciris" = some "0.17.2"
    ∧ ∀ (scirisEnv : ImportOutcome ScirisModule) (k : String),
        check_sciris scirisEnv min_versions ≠ Except.error (PyExc.keyError k) := by
  refine ⟨rfl, ?_⟩
  intro scirisEnv k
  cases scirisEnv with
  | ok sc =>
    have hd : check_sciris (ImportOutcome.ok sc) min_versions
        = if compareversions sc.version "0.17.2" < 0 then
            Except.error (PyExc.importError (sciris_outdated_errormsg sc.version "0.17.2"))
          else Except.ok () := rfl
    rw [hd]
    split <;> simp
  | moduleNotFoundError m => simp [check_sciris]
  | importError m => simp [check_sciris]

/-- Witness for C7 at a concrete environment and key. -/
theorem min_versions_lookup_total_witness :
    check_sciris (ImportOutcome.ok { version := "0.17.2" }) min_versions
      ≠ Except.error (PyExc.keyError "sciris") :=
  min_versions_lookup_total.2 (ImportOutcome.ok { version := "0.17.2" }) "sciris"

/-- Claim C8: neither check writes to the module-level dicts: with the module
globals threaded explicitly, both checks return the state they received on
every path, and check_synthpops caches nothing, so a second call in the same
environment returns exactly the same answer and state as the first. -/
theorem checks_preserve_globals (α : Type) (scirisEnv : ImportOutcome ScirisModule)
    (synthpopsEnv : ImportOutcome α) (verbose die : Bool) (g : RequirementsModule) :
    (check_sciris_st scirisEnv g).2 = g
    ∧ (check_synthpops_st synthpopsEnv verbose die g).2 = g
    ∧ check_synthpops_st synthpopsEnv verbose die
        ((check_synthpops_st synthpopsEnv verbose die g).2)
      = check_synthpops_st synthpopsEnv verbose die g :=
  ⟨rfl, rfl, rfl⟩

/-- Claim C9: the try/except body of check_synthpops returns on every path,
so the trailing bare return is unreachable and no call ever returns Python
None: every terminating call yields either the loaded module, exactly the
boolean False, or a raised exception. -/
theorem check_synthpops_returns_module_or_false (α : Type)
    (synthpopsEnv : ImportOutcome α) (verbose die : Bool) :
    check_synthpops_body synthpopsEnv verbose die ≠ none
    ∧ (check_synthpops synthpopsEnv verbose die).1 ≠ Except.ok SynthReturn.pyNone
    ∧ ((∃ handle, (check_synthpops synthpopsEnv verbose die).1
          = Except.ok (SynthReturn.module handle))
       ∨ (check_synthpops synthpopsEnv verbose die).1 = Except.ok SynthReturn.boolFalse
       ∨ ∃ e, (check_synthpops synthpopsEnv verbose die).1 = Except.error e) := by
  cases synthpopsEnv <;> cases die <;> cases verbose <;>
    simp [check_synthpops, check_synthpops_body]

/-- Witness for C9 at a concrete absent-synthpops environment. -/
theorem check_synthpops_returns_module_or_false_witness :
    check_synthpops_body (ImportOutcome.importError "boom" : ImportOutcome Unit) true false
      ≠ none :=
  (check_synthpops_returns_module_or_false Unit (ImportOutcome.importError "boom")
    true false).1

/-- Claim C10: the mandatory check's two failure modes are a
ModuleNotFoundError (library missing) and a plain ImportError (version too
old); a plain ImportError raised while loading sciris is not caught and
propagates unchanged, without the install-instruction message; and since
ModuleNotFoundError is an ImportError in the exception model, every error
check_sciris produces on the module's own table satisfies the ImportError
instance test, so one ImportError handler catches both failure modes. -/
theorem check_sciris_error_taxonomy :
    (∀ (m : String) (tbl : List (String × String)),
        check_sciris (ImportOutcome.importError m) tbl = Except.error (PyExc.importError m))
    ∧ (∀ m : String, (PyExc.moduleNotFoundError m).isImportError = true)
    ∧ (∀ (scirisEnv : ImportOutcome ScirisModule) (e : PyExc),
        check_sciris scirisEnv min_versions = Except.error e → e.isImportError = true) := by
  refine ⟨fun m tbl => rfl, fun m => rfl, ?_⟩
  intro scirisEnv e he
  cases scirisEnv with
  | ok sc =>
    have hd : check_sciris (ImportOutcome.ok sc) min_versions
        = if compareversions sc.version "0.17.2" < 0 then
            Except.error (PyExc.importError (sciris_outdated_errormsg sc.version "0.17.2"))
          else Except.ok () := rfl
    rw [hd] at he
    split at he
    · injection he with h1
      subst h1
      rfl
    · exact Except.noConfusion he
  | moduleNotFoundError m =>
    cases he
    rfl
  | importError m =>
    cases he
    rfl

/-- Witness for C10: a concrete run of check_sciris whose error passes the
ImportError instance test. -/
theorem check_sciris_error_taxonomy_witness :
    PyExc.isImportError (PyExc.importError (sciris_outdated_errormsg "0.1.0" "0.17.2"))
      = true :=
  check_sciris_error_taxonomy.2.2 (ImportOutcome.ok { version := "0.1.0" })
    (PyExc.importError (sciris_outdated_errormsg "0.1.0" "0.17.2")) rfl
